import Mathlib

/-!
Shallow embedding of `src/cicd/upload.py`, an OSS upload utility.

Python strings are modelled as `List Char` (a Python `str` is a sequence of
Unicode code points, as is a Lean `List Char`).  Environment reads, the file
system check and the SDK's put operation are passed in as explicit parameters,
so `main` is a pure function of those oracles.
-/
/-- A Python string: a sequence of Unicode code points. -/
abbrev Str := List Char

/-- The ASCII whitespace characters stripped by Python `str.strip()`
(space, tab, newline, carriage return, vertical tab, form feed).
Inputs in this development contain no non-ASCII whitespace. -/
def pySpace (c : Char) : Bool :=
  (c == ' ') || (c == '\t') || (c == '\n') || (c == '\r') ||
  (c == Char.ofNat 11) || (c == Char.ofNat 12)

/-- Remove leading characters satisfying `p` (Python `lstrip`). -/
def stripLeft (p : Char → Bool) (s : Str) : Str := s.dropWhile p

/-- Remove trailing characters satisfying `p` (Python `rstrip`). -/
def stripRight (p : Char → Bool) (s : Str) : Str := (s.reverse.dropWhile p).reverse

/-- Remove leading and trailing characters satisfying `p` (Python `strip`). -/
def stripBoth (p : Char → Bool) (s : Str) : Str := stripRight p (stripLeft p s)

/-- Python `str.strip()` with no argument: strip whitespace from both ends. -/
def pyStrip (s : Str) : Str := stripBoth pySpace s

/-- Python `str.strip("/")`: strip `/` characters from both ends. -/
def stripSlashes (s : Str) : Str := stripBoth (fun c => c == '/') s

/-- Python `str.rstrip("/")`: strip trailing `/` characters. -/
def rstripSlashes (s : Str) : Str := stripRight (fun c => c == '/') s

/-- Python `str.startswith(pre)`. -/
def startsWith (pre s : Str) : Bool := pre.isPrefixOf s

/-- Python `str.endswith(suf)` (used to state the "no trailing slash" facts). -/
def endsWith (suf s : Str) : Bool := suf.isSuffixOf s

/-- `normalize_endpoint` from `src/cicd/upload.py` lines 43-47:
strip whitespace; if the result starts with `http://` or `https://`, strip
trailing slashes; otherwise prepend `https://` to the slash-stripped rest. -/
def normalize_endpoint (raw_endpoint : Str) : Str :=
  let endpoint := pyStrip raw_endpoint
  if startsWith ("http://").data endpoint || startsWith ("https://").data endpoint then
    rstripSlashes endpoint
  else
    ("https://").data ++ stripSlashes endpoint

/-! Percent-encoding.  `build_public_url` calls `urllib.parse.quote` with its
default `safe="/"`; `quote` encodes the string as UTF-8 and percent-encodes
every byte outside `ALPHA / DIGIT / "_.-~" / "/"` as `%XX` with uppercase
hex digits. -/

/-- UTF-8 encoding of one Unicode code point, as in Python `str.encode("utf-8")`. -/
def utf8Encode (n : Nat) : List Nat :=
  if n < 128 then [n]
  else if n < 2048 then [192 + n / 64, 128 + n % 64]
  else if n < 65536 then [224 + n / 4096, 128 + n / 64 % 64, 128 + n % 64]
  else [240 + n / 262144, 128 + n / 4096 % 64, 128 + n / 64 % 64, 128 + n % 64]

/-- UTF-8 encoding of a whole string. -/
def utf8Str (s : Str) : List Nat := s.flatMap (fun c => utf8Encode c.toNat)

/-- Uppercase hexadecimal digit for a value below 16. -/
def hexDigit (n : Nat) : Char := if n < 10 then Char.ofNat (48 + n) else Char.ofNat (55 + n)

/-- Numeric value of a hexadecimal digit character (for percent-decoding). -/
def hexVal (c : Char) : Nat :=
  if 97 ≤ c.toNat then c.toNat - 87
  else if 65 ≤ c.toNat then c.toNat - 55
  else c.toNat - 48

/-- Percent-encoding `%XX` of one byte, uppercase as in `urllib.parse.quote`. -/
def pctByte (b : Nat) : Str := '%' :: hexDigit (b / 16) :: hexDigit (b % 16) :: []

/-- Characters `urllib.parse.quote` leaves unescaped with its default
`safe="/"`: ASCII letters, digits, `_`, `.`, `-`, `~` and `/`. -/
def quoteSafe (c : Char) : Bool :=
  (65 ≤ c.toNat && c.toNat ≤ 90) || (97 ≤ c.toNat && c.toNat ≤ 122) ||
  (48 ≤ c.toNat && c.toNat ≤ 57) ||
  (c.toNat == 95) || (c.toNat == 46) || (c.toNat == 45) || (c.toNat == 126) ||
  (c.toNat == 47)

/-- Python `urllib.parse.quote(s)` with the default `safe="/"`. -/
def quote (s : Str) : Str :=
  s.flatMap (fun c =>
    if quoteSafe c then [c] else (utf8Encode c.toNat).flatMap pctByte)

/-- Percent-decoding of an ASCII string into a byte sequence: a `%XX` triple
becomes the byte `XX`, any other character stands for its own code point. -/
def percentDecode : Str → List Nat
  | [] => []
  | c :: rest =>
    if c = '%' then
      match rest with
      | h :: l :: r => (hexVal h * 16 + hexVal l) :: percentDecode r
      | _ => []
    else c.toNat :: percentDecode rest

/-- Code point encoded by a UTF-8 group: leading byte `b` followed by the
continuation bytes at the front of `rest` (1 to 3 of them, by `b`'s range). -/
def utf8Group (b : Nat) (rest : List Nat) : Nat :=
  if b < 128 then b
  else if b < 224 then (b - 192) * 64 + (rest.getD 0 0 - 128)
  else if b < 240 then (b - 224) * 4096 + (rest.getD 0 0 - 128) * 64 + (rest.getD 1 0 - 128)
  else (b - 240) * 262144 + (rest.getD 0 0 - 128) * 4096 + (rest.getD 1 0 - 128) * 64
    + (rest.getD 2 0 - 128)

/-- Number of continuation bytes following a UTF-8 leading byte. -/
def utf8Skip (b : Nat) : Nat :=
  if b < 128 then 0 else if b < 224 then 1 else if b < 240 then 2 else 3

/-- Recursion core of `utf8Decode`; the fuel argument only makes the
recursion structural and is always called with at least the byte list's
length, which the scan can never exceed. -/
def utf8DecodeAux : Nat → List Nat → List Nat
  | _, [] => []
  | 0, _ :: _ => []
  | fuel + 1, b :: rest => utf8Group b rest :: utf8DecodeAux fuel (rest.drop (utf8Skip b))

/-- UTF-8 decoding of a byte sequence back into code points (inputs in this
development are always well-formed UTF-8). -/
def utf8Decode (bs : List Nat) : List Nat := utf8DecodeAux bs.length bs

/-- Recursion core of `replaceAll`; the fuel argument only makes the
recursion structural and is always called with at least the string's length,
which the scan can never exceed. -/
def replaceAllAux (pat repl : Str) : Nat → Str → Str
  | _, [] => []
  | 0, s => s
  | fuel + 1, c :: rest =>
    if pat ≠ [] ∧ startsWith pat (c :: rest) = true then
      repl ++ replaceAllAux pat repl fuel (rest.drop (pat.length - 1))
    else
      c :: replaceAllAux pat repl fuel rest

/-- Python `str.replace(pat, repl)` for a non-empty pattern: replace every
non-overlapping occurrence, scanning left to right.  (With an empty pattern
this returns the string unchanged; the program only uses non-empty patterns.) -/
def replaceAll (pat repl s : Str) : Str := replaceAllAux pat repl s.length s

/-- Host part as computed by `build_public_url` line 51: remove all
occurrences of `https://`, then of `http://`. -/
def hostOf (endpoint : Str) : Str :=
  replaceAll ("http://").data [] (replaceAll ("https://").data [] endpoint)

/-- `build_public_url` from `src/cicd/upload.py` lines 50-53. -/
def build_public_url (endpoint bucket object_key : Str) : Str :=
  let host := hostOf endpoint
  let encoded_key := quote object_key
  ("https://").data ++ bucket ++ (".").data ++ host ++ ("/").data ++ encoded_key

/-! Environment, SDK oracle and the orchestration `main`.

The process environment is a finite map from variable names to values; an
unset variable is simply absent.  The two external effects of
`upload_with_oss2` are passed as oracles: whether `import oss2` succeeds
(`oss2Installed`) and the HTTP-like status the SDK's
`put_object_from_file` returns (`putStatus`).  `main`'s file-system probe
`Path.is_file` is the oracle `isFile`. -/

/-- Process environment: association list of variable name / value pairs. -/
abbrev Env := List (Str × Str)

/-- Python `os.getenv(name, default)`. -/
def getenv (env : Env) (name dflt : Str) : Str :=
  ((env.find? (fun p => p.1 == name)).map (fun p => p.2)).getD dflt

/-- Python `", ".join(names)`. -/
def joinComma : List Str → Str
  | [] => []
  | [x] => x
  | x :: y :: rest => x ++ (", ").data ++ joinComma (y :: rest)

/-- Loop of `require_env` (`src/cicd/upload.py` lines 34-38): first candidate
whose value strips to non-blank wins, and the stripped value is returned. -/
def requireEnvLoop (env : Env) : List Str → Option Str
  | [] => none
  | v :: rest =>
      let value := pyStrip (getenv env v [])
      if value ≠ [] then some value else requireEnvLoop env rest

/-- `require_env` from `src/cicd/upload.py` lines 33-40; `RuntimeError`
becomes the `Except.error` branch carrying the message. -/
def require_env (env : Env) (name : Str) (aliases : List Str) : Except Str Str :=
  match requireEnvLoop env (name :: aliases) with
  | some value => .ok value
  | none => .error (("Missing required env var: ").data ++ joinComma (name :: aliases))

/-- Authentication context built by `upload_with_oss2`: `oss2.Auth` or
`oss2.StsAuth`. -/
inductive Auth
  | std (access_key_id access_key_secret : Str)
  | sts (access_key_id access_key_secret security_token : Str)
deriving DecidableEq

/-- Decimal rendering of the status code, as in the f-string `status={...}`. -/
def natToStr (n : Nat) : Str := Nat.toDigits 10 n

/-- `upload_with_oss2` from `src/cicd/upload.py` lines 56-73.  On success it
returns the `Auth` context it built (in Python the function returns `None`;
returning the auth context here only makes the chosen auth mode observable). -/
def upload_with_oss2 (oss2Installed : Bool) (putStatus : Nat) (env : Env)
    (local_file endpoint bucket_name object_key : Str) : Except Str Auth :=
  if ¬ oss2Installed then
    .error ("Python package 'oss2' not installed, run: pip3 install oss2").data
  else
    match require_env env ("FINE_OSS_ACCESS_KEY_ID").data [("FINE_OSS_ID").data] with
    | .error e => .error e
    | .ok access_key_id =>
        match require_env env ("FINE_OSS_ACCESS_KEY_SECRET").data [("FINE_OSS_SECRET").data] with
        | .error e => .error e
        | .ok access_key_secret =>
            let security_token := pyStrip (getenv env ("FINE_OSS_SECURITY_TOKEN").data [])
            let auth := if security_token ≠ [] then
                Auth.sts access_key_id access_key_secret security_token
              else
                Auth.std access_key_id access_key_secret
            if putStatus < 200 ∨ 300 ≤ putStatus then
              .error (("OSS upload failed, status=").data ++ natToStr putStatus)
            else
              .ok auth

/-- Display form of `pathlib.Path` (POSIX): collapse repeated slashes (except
a leading exactly-double slash), drop `.` components and trailing slashes;
the empty path displays as `.`.  Used because `main` prints
`f"File not found: {local_file}"` with `local_file : Path`. -/
def pathStr (p : Str) : Str :=
  let lead := (p.takeWhile (fun c => c == '/')).length
  let root : Str := if lead == 0 then [] else if lead == 2 then ("//").data else ("/").data
  let parts := (p.splitOn '/').filter (fun comp => comp ≠ [] ∧ comp ≠ (".").data)
  if root = [] ∧ parts = [] then (".").data
  else root ++ List.intercalate ("/").data parts

/-- Command-line arguments of the script. -/
structure Args where
  file : Str
  object_key : Str

def DEFAULT_ZIP_PATH : Str := ("dist/obsidian-publish-everywhere.zip").data

def DEFAULT_BUCKET : Str := ("fine-build").data

def DEFAULT_OBJECT_KEY : Str := ("test/obsidian-publish-everywhere.zip").data

/-- `parse_args` from `src/cicd/upload.py` lines 18-30: `--file` and
`--object-key` with their defaults. -/
def parse_args (fileArg objectKeyArg : Option Str) : Args :=
  { file := fileArg.getD DEFAULT_ZIP_PATH, object_key := objectKeyArg.getD DEFAULT_OBJECT_KEY }

/-- Bucket resolution of `main` line 84:
`os.getenv("FINE_OSS_BUCKET", DEFAULT_BUCKET).strip() or DEFAULT_BUCKET`. -/
def bucketOf (env : Env) : Str :=
  let b := pyStrip (getenv env ("FINE_OSS_BUCKET").data DEFAULT_BUCKET)
  if b = [] then DEFAULT_BUCKET else b

/-- Body of the `try` block of `main` (`src/cicd/upload.py` lines 77-96),
returning the list of stdout lines on success. -/
def mainBody (args : Args) (env : Env) (isFile : Str → Bool) (oss2Installed : Bool)
    (putStatus : Nat) : Except Str (List Str) :=
  let local_file := args.file
  if ¬ isFile local_file then
    .error (("File not found: ").data ++ pathStr local_file)
  else
    match require_env env ("FINE_OSS_ENDPOINT").data [] with
    | .error e => .error e
    | .ok rawEndpoint =>
        let endpoint := normalize_endpoint rawEndpoint
        let bucket_name := bucketOf env
        let object_key := stripSlashes args.object_key
        if object_key = [] then
          .error ("object key must not be empty").data
        else
          match upload_with_oss2 oss2Installed putStatus env local_file endpoint
              bucket_name object_key with
          | .error e => .error e
          | .ok _ =>
              let download_url := build_public_url endpoint bucket_name object_key
              .ok [("Uploaded: ").data ++ pathStr local_file,
                   ("OSS Path: oss://").data ++ bucket_name ++ ("/").data ++ object_key,
                   ("URL: ").data ++ download_url,
                   ("下载地址: ").data ++ download_url]

namespace cicd

/-- `main` from `src/cicd/upload.py` lines 76-101 together with the
`raise SystemExit(main())` entry: result is the process exit code, the
stdout lines and the stderr lines. -/
def main (args : Args) (env : Env) (isFile : Str → Bool) (oss2Installed : Bool)
    (putStatus : Nat) : Nat × List Str × List Str :=
  match mainBody args env isFile oss2Installed putStatus with
  | .ok outs => (0, outs, [])
  | .error e => (1, [], [("upload failed: ").data ++ e])

end cicd

/-- Concrete environment used by witnesses: endpoint and credentials set,
bucket unset. -/
def testEnv : Env :=
  [(("FINE_OSS_ENDPOINT").data, ("oss-cn-hangzhou.aliyuncs.com").data),
   (("FINE_OSS_ACCESS_KEY_ID").data, ("test-id").data),
   (("FINE_OSS_ACCESS_KEY_SECRET").data, ("test-secret").data)]

/-- Concrete arguments used by witnesses. -/
def testArgs : Args := ⟨("dist/plugin.zip").data, ("test/plugin.zip").data⟩

/-- Concrete environment with a whitespace-only security token, used by the
C10 witness. -/
def testEnvTok : Env :=
  testEnv ++ [(("FINE_OSS_SECURITY_TOKEN").data, ("   ").data)]

/-! Lemmas and theorems. -/

example : normalize_endpoint ("oss-cn-hangzhou.aliyuncs.com").data
    = ("https://oss-cn-hangzhou.aliyuncs.com").data := by decide

example : normalize_endpoint ("https://a.example.com/").data
    = ("https://a.example.com").data := by decide

example : normalize_endpoint ("").data = ("https://").data := by decide

example : normalize_endpoint ("https://").data = ("https:").data := by decide

/-! Helper lemmas about the string primitives. -/
lemma startsWith_iff (pre s : Str) : startsWith pre s = true ↔ pre <+: s := by
  simp [startsWith]

lemma startsWith_append (pre t : Str) : startsWith pre (pre ++ t) = true := by
  simp [startsWith]

lemma stripRight_reverse (p : Char → Bool) (s : Str) :
    (stripRight p s).reverse = s.reverse.dropWhile p := by
  unfold stripRight
  rw [List.reverse_reverse]

lemma head?_stripRight_reverse_not (p : Char → Bool) (s : Str) (c : Char)
    (h : (stripRight p s).reverse.head? = some c) : p c = false := by
  rw [stripRight_reverse] at h
  have hm := List.head?_dropWhile_not p s.reverse
  rw [h] at hm
  exact hm

lemma dropWhile_eq_self_of_head (p : Char → Bool) (l : Str)
    (h : ∀ c, l.head? = some c → p c = false) : l.dropWhile p = l := by
  cases l with
  | nil => rfl
  | cons x xs =>
      have hx : p x = false := h x rfl
      simp [List.dropWhile_cons, hx]

lemma endsWith_single_iff (c : Char) (s : Str) :
    endsWith (c :: []) s = true ↔ s.reverse.head? = some c := by
  unfold endsWith
  rw [List.isSuffixOf]
  simp only [List.reverse_cons, List.reverse_nil, List.nil_append,
    List.isPrefixOf_iff_prefix]
  cases hr : s.reverse with
  | nil => simp
  | cons b t => simp [List.cons_prefix_cons, eq_comm]

lemma stripRight_eq_self (p : Char → Bool) (s : Str)
    (h : ∀ c, s.reverse.head? = some c → p c = false) : stripRight p s = s := by
  unfold stripRight
  rw [dropWhile_eq_self_of_head p s.reverse h, List.reverse_reverse]

lemma stripRight_idem (p : Char → Bool) (s : Str) :
    stripRight p (stripRight p s) = stripRight p s := by
  apply stripRight_eq_self
  intro c hc
  exact head?_stripRight_reverse_not p s c hc

lemma startsWith_pyStrip (pre raw : Str)
    (hL : pre.dropWhile pySpace = pre)
    (hR : pre.reverse.dropWhile pySpace = pre.reverse)
    (h : startsWith pre raw = true) : startsWith pre (pyStrip raw) = true := by
  rw [startsWith_iff] at h
  obtain ⟨t, rfl⟩ := h
  unfold pyStrip stripBoth stripLeft
  rw [startsWith_iff]
  cases hp : pre with
  | nil =>
      exact List.nil_prefix
  | cons x xs =>
      rw [hp] at hL hR
      have hx : pySpace x = false := by
        by_contra hxx
        rw [Bool.not_eq_false] at hxx
        simp only [List.dropWhile_cons, hxx, if_true] at hL
        have h1 := congrArg List.length hL
        have h2 := (List.dropWhile_sublist (l := xs) pySpace).length_le
        simp at h1
        omega
      rw [List.cons_append, List.dropWhile_cons_of_neg (by simp [hx]), ← List.cons_append]
      unfold stripRight
      rw [List.reverse_append, List.dropWhile_append]
      split
      · rw [hR, List.reverse_reverse]
      · rw [List.reverse_append, List.reverse_reverse]
        exact ⟨(t.reverse.dropWhile pySpace).reverse, rfl⟩

lemma head?_of_startsWith (c : Char) (pre s : Str)
    (h : startsWith (c :: pre) s = true) : s.head? = some c := by
  rw [startsWith_iff] at h
  obtain ⟨t, rfl⟩ := h
  rfl

/-- C2 counterexample: the claim as stated fails.  The raw endpoint `""` does
not begin with a scheme prefix, yet `normalize_endpoint ""` is `"https://"`,
which ends with `"/"`; and `" http://a"` does not begin with a scheme prefix
(it begins with a space), yet its normalization `"http://a"` does not start
with `"https://"`. -/
theorem normalize_endpoint_adds_scheme_cex :
    (startsWith ("http://").data ("").data = false ∧
     startsWith ("https://").data ("").data = false ∧
     endsWith ("/").data (normalize_endpoint ("").data) = true) ∧
    (startsWith ("http://").data (" http://a").data = false ∧
     startsWith ("https://").data (" http://a").data = false ∧
     startsWith ("https://").data (normalize_endpoint (" http://a").data) = false) := by
  decide

/-- C2 (amended): for every raw endpoint whose whitespace-stripped form does
not begin with `http://` or `https://` and which is non-empty after stripping
whitespace and slashes, `normalize_endpoint` returns a string that starts with
`https://` and does not end with `/`. -/
theorem normalize_endpoint_adds_scheme (raw : Str)
    (h1 : startsWith ("http://").data (pyStrip raw) = false)
    (h2 : startsWith ("https://").data (pyStrip raw) = false)
    (h3 : stripSlashes (pyStrip raw) ≠ []) :
    startsWith ("https://").data (normalize_endpoint raw) = true ∧
    endsWith ("/").data (normalize_endpoint raw) = false := by
  have hn : normalize_endpoint raw = ("https://").data ++ stripSlashes (pyStrip raw) := by
    unfold normalize_endpoint
    simp [h1, h2]
  constructor
  · rw [hn]
    exact startsWith_append _ _
  · rw [hn]
    have h4 : ("/").data = '/' :: [] := rfl
    rw [h4, Bool.eq_false_iff]
    intro hcontra
    rw [endsWith_single_iff, List.reverse_append] at hcontra
    cases hrev : (stripSlashes (pyStrip raw)).reverse with
    | nil =>
        exact h3 (by simpa using congrArg List.reverse hrev)
    | cons b t =>
        rw [hrev] at hcontra
        simp only [List.cons_append, List.head?_cons, Option.some.injEq] at hcontra
        have hb : (b == '/') = false := by
          apply head?_stripRight_reverse_not (fun c => c == '/')
            (stripLeft (fun c => c == '/') (pyStrip raw))
          rw [show stripRight (fun c => c == '/')
                (stripLeft (fun c => c == '/') (pyStrip raw))
              = stripSlashes (pyStrip raw) from rfl, hrev]
          rfl
        rw [hcontra] at hb
        simp at hb

/-- C2 witness: the amended theorem applied at the concrete raw endpoint
`"example.com/"`. -/
theorem normalize_endpoint_adds_scheme_witness :
    startsWith ("https://").data (normalize_endpoint ("example.com/").data) = true ∧
    endsWith ("/").data (normalize_endpoint ("example.com/").data) = false :=
  normalize_endpoint_adds_scheme ("example.com/").data
    (by decide) (by decide) (by decide)

/-- C3 counterexample: the claim as stated fails.  `"https://"` begins with
`"https://"`, but normalizing once gives `"https:"` and normalizing twice
gives `"https://https:"`; `"https://a /"` begins with `"https://"`, but
normalizing once gives `"https://a "` and normalizing twice strips the
exposed trailing space, giving `"https://a"`. -/
theorem normalize_endpoint_idem_cex :
    (startsWith ("https://").data ("https://").data = true ∧
     normalize_endpoint (normalize_endpoint ("https://").data) ≠
       normalize_endpoint ("https://").data) ∧
    (startsWith ("https://").data ("https://a /").data = true ∧
     normalize_endpoint (normalize_endpoint ("https://a /").data) ≠
       normalize_endpoint ("https://a /").data) := by
  decide

/-- C3 (amended): for every endpoint that already begins with `http://` or
`https://`, `normalize_endpoint` is idempotent, provided the once-normalized
result still begins with `http://` or `https://` and does not end in a
whitespace character. -/
theorem normalize_endpoint_idem (raw : Str)
    (h0 : (startsWith ("http://").data raw ||
           startsWith ("https://").data raw) = true)
    (h1 : (startsWith ("http://").data (normalize_endpoint raw) ||
           startsWith ("https://").data (normalize_endpoint raw)) = true)
    (h2 : ∀ c, (normalize_endpoint raw).reverse.head? = some c → pySpace c = false) :
    normalize_endpoint (normalize_endpoint raw) = normalize_endpoint raw := by
  have hcond : (startsWith ("http://").data (pyStrip raw) ||
      startsWith ("https://").data (pyStrip raw)) = true := by
    have h0' : startsWith ("http://").data raw = true ∨
        startsWith ("https://").data raw = true := by simpa using h0
    rcases h0' with h | h
    · have := startsWith_pyStrip ("http://").data raw (by decide) (by decide) h
      simp [this]
    · have := startsWith_pyStrip ("https://").data raw (by decide) (by decide) h
      simp [this]
  have hr : normalize_endpoint raw = rstripSlashes (pyStrip raw) := by
    unfold normalize_endpoint
    simp [hcond]
  have hps : pyStrip (normalize_endpoint raw) = normalize_endpoint raw := by
    unfold pyStrip stripBoth
    have hleft : stripLeft pySpace (normalize_endpoint raw) = normalize_endpoint raw := by
      unfold stripLeft
      apply dropWhile_eq_self_of_head
      intro c hc
      have hh : (normalize_endpoint raw).head? = some 'h' := by
        have h1' : startsWith ("http://").data (normalize_endpoint raw) = true ∨
            startsWith ("https://").data (normalize_endpoint raw) = true := by
          simpa using h1
        rcases h1' with h | h
        · exact head?_of_startsWith 'h' ("ttp://").data _ h
        · exact head?_of_startsWith 'h' ("ttps://").data _ h
      rw [hh] at hc
      rw [(Option.some.inj hc).symm]
      decide
    rw [hleft]
    exact stripRight_eq_self _ _ h2
  have hfin : ∀ s : Str, pyStrip s = s →
      (startsWith ("http://").data s || startsWith ("https://").data s) = true →
      normalize_endpoint s = rstripSlashes s := by
    intro s hs hc
    unfold normalize_endpoint
    rw [hs]
    simp [hc]
  rw [hfin (normalize_endpoint raw) hps h1, hr]
  unfold rstripSlashes
  exact stripRight_idem _ _

/-- C3 witness: the amended theorem applied at the concrete endpoint
`"https://x.com/"` (normalizing once gives `"https://x.com"`). -/
theorem normalize_endpoint_idem_witness :
    normalize_endpoint (normalize_endpoint ("https://x.com/").data) =
      normalize_endpoint ("https://x.com/").data :=
  normalize_endpoint_idem ("https://x.com/").data (by decide) (by decide)
    (by
      intro c hc
      have he : (normalize_endpoint ("https://x.com/").data).reverse.head? = some 'm' := by
        decide
      rw [he] at hc
      rw [(Option.some.inj hc).symm]
      decide)

example : build_public_url ("https://oss-cn-hangzhou.aliyuncs.com").data
    ("fine-build").data ("test/plugin.zip").data
    = ("https://fine-build.oss-cn-hangzhou.aliyuncs.com/test/plugin.zip").data := by decide

example : quote ("a b").data = ("a%20b").data := by decide

example : quote ("文").data = ("%E6%96%87").data := by decide

example : percentDecode ("a%20b").data = [97, 32, 98] := by decide

example : utf8Decode [230, 150, 135] = [25991] := by decide

/-! Lemmas for the percent-encoding roundtrip. -/
lemma char_toNat_lt (c : Char) : c.toNat < 1114112 := by
  rcases c.valid with h | ⟨h1, h2⟩
  · exact Nat.lt_trans h (by decide)
  · exact h2

lemma utf8Encode_lt (n : Nat) (h : n < 1114112) : ∀ b ∈ utf8Encode n, b < 256 := by
  intro b hb
  unfold utf8Encode at hb
  split at hb
  · simp at hb
    omega
  · split at hb
    · simp at hb
      rcases hb with hb | hb <;> omega
    · split at hb
      · simp at hb
        rcases hb with hb | hb | hb <;> omega
      · simp at hb
        rcases hb with hb | hb | hb | hb <;> omega

lemma hexVal_hexDigit (n : Nat) (h : n < 16) : hexVal (hexDigit n) = n := by
  interval_cases n <;> decide

lemma percentDecode_cons_ne (c : Char) (rest : Str) (h : ¬ c = '%') :
    percentDecode (c :: rest) = c.toNat :: percentDecode rest := by
  rw [percentDecode.eq_def]
  dsimp only
  rw [if_neg h]

lemma percentDecode_pct_cons (h l : Char) (r : Str) :
    percentDecode ('%' :: h :: l :: r) = (hexVal h * 16 + hexVal l) :: percentDecode r := by
  rw [percentDecode.eq_def]
  dsimp only
  rw [if_pos rfl]

lemma percentDecode_pctByte (b : Nat) (hb : b < 256) (rest : Str) :
    percentDecode (pctByte b ++ rest) = b :: percentDecode rest := by
  unfold pctByte
  simp only [List.cons_append, List.nil_append]
  rw [percentDecode_pct_cons]
  rw [hexVal_hexDigit (b / 16) (by omega), hexVal_hexDigit (b % 16) (by omega)]
  congr 1
  omega

lemma percentDecode_bytes (bs : List Nat) (h : ∀ b ∈ bs, b < 256) (rest : Str) :
    percentDecode (bs.flatMap pctByte ++ rest) = bs ++ percentDecode rest := by
  induction bs with
  | nil => simp
  | cons b bt ih =>
      simp only [List.flatMap_cons, List.append_assoc]
      rw [percentDecode_pctByte b (h b (by simp)), ih (fun x hx => h x (by simp [hx]))]
      rfl

lemma quoteSafe_lt (c : Char) (h : quoteSafe c = true) : c.toNat < 128 := by
  simp [quoteSafe] at h
  rcases h with ((((((h | h) | h) | h) | h) | h) | h) | h <;> omega

lemma quoteSafe_ne_pct (c : Char) (h : quoteSafe c = true) : ¬ c = '%' := by
  intro he
  subst he
  revert h
  decide

lemma quote_cons (c : Char) (kt : Str) :
    quote (c :: kt) =
      (if quoteSafe c = true then [c] else (utf8Encode c.toNat).flatMap pctByte) ++ quote kt := by
  simp only [quote, List.flatMap_cons]

lemma utf8Str_cons (c : Char) (kt : Str) :
    utf8Str (c :: kt) = utf8Encode c.toNat ++ utf8Str kt := by
  simp only [utf8Str, List.flatMap_cons]

lemma percentDecode_quote_aux (k : Str) :
    ∀ rest : Str, percentDecode (quote k ++ rest) = utf8Str k ++ percentDecode rest := by
  induction k with
  | nil =>
      intro rest
      simp [quote, utf8Str]
  | cons c kt ih =>
      intro rest
      rw [quote_cons, utf8Str_cons]
      by_cases hc : quoteSafe c = true
      · have hlt : c.toNat < 128 := quoteSafe_lt c hc
        rw [if_pos hc, List.append_assoc, List.singleton_append]
        rw [percentDecode_cons_ne c _ (quoteSafe_ne_pct c hc)]
        rw [show utf8Encode c.toNat = [c.toNat] from by simp [utf8Encode, hlt]]
        rw [List.append_assoc, List.singleton_append, ih rest]
      · rw [if_neg hc, List.append_assoc, List.append_assoc]
        rw [percentDecode_bytes (utf8Encode c.toNat)
          (utf8Encode_lt c.toNat (char_toNat_lt c)), ih rest]

lemma utf8DecodeAux_fuel : ∀ (f1 f2 : Nat) (bs : List Nat), bs.length ≤ f1 → bs.length ≤ f2 →
    utf8DecodeAux f1 bs = utf8DecodeAux f2 bs := by
  intro f1
  induction f1 using Nat.strong_induction_on with
  | _ f1 ih =>
      intro f2 bs h1 h2
      cases bs with
      | nil => cases f1 <;> cases f2 <;> rfl
      | cons b rest =>
          cases f1 with
          | zero => simp at h1
          | succ g1 =>
              cases f2 with
              | zero => simp at h2
              | succ g2 =>
                  simp only [utf8DecodeAux]
                  congr 1
                  have hd := List.length_drop (utf8Skip b) rest
                  simp only [List.length_cons] at h1 h2
                  apply ih g1 (by omega) g2 <;> omega

lemma utf8Decode_encode (n : Nat) (h : n < 1114112) (bs : List Nat) :
    utf8Decode (utf8Encode n ++ bs) = n :: utf8Decode bs := by
  by_cases h1 : n < 128
  · rw [show utf8Encode n = [n] from by simp [utf8Encode, h1], List.singleton_append]
    unfold utf8Decode
    simp only [List.length_cons, utf8DecodeAux]
    rw [show utf8Skip n = 0 from by unfold utf8Skip; rw [if_pos h1],
      show utf8Group n bs = n from by unfold utf8Group; rw [if_pos h1],
      List.drop_zero]
  · by_cases h2 : n < 2048
    · rw [show utf8Encode n = [192 + n / 64, 128 + n % 64] from by
        simp [utf8Encode, h1, h2]]
      simp only [List.cons_append, List.nil_append]
      unfold utf8Decode
      simp only [List.length_cons, utf8DecodeAux]
      rw [show utf8Skip (192 + n / 64) = 1 from by
            unfold utf8Skip; rw [if_neg (by omega), if_pos (by omega)],
          show utf8Group (192 + n / 64) ((128 + n % 64) :: bs) = n from by
            unfold utf8Group
            rw [if_neg (by omega), if_pos (by omega)]
            simp only [List.getD_cons_zero]
            omega]
      simp only [List.drop_succ_cons, List.drop_zero]
      congr 1
      exact utf8DecodeAux_fuel _ _ bs (by omega) (by omega)
    · by_cases h3 : n < 65536
      · rw [show utf8Encode n = [224 + n / 4096, 128 + n / 64 % 64, 128 + n % 64] from by
          simp [utf8Encode, h1, h2, h3]]
        simp only [List.cons_append, List.nil_append]
        unfold utf8Decode
        simp only [List.length_cons, utf8DecodeAux]
        rw [show utf8Skip (224 + n / 4096) = 2 from by
              unfold utf8Skip; rw [if_neg (by omega), if_neg (by omega), if_pos (by omega)],
            show utf8Group (224 + n / 4096) ((128 + n / 64 % 64) :: (128 + n % 64) :: bs) = n
              from by
                unfold utf8Group
                rw [if_neg (by omega), if_neg (by omega), if_pos (by omega)]
                simp only [List.getD_cons_zero, List.getD_cons_succ]
                omega]
        simp only [List.drop_succ_cons, List.drop_zero]
        congr 1
        exact utf8DecodeAux_fuel _ _ bs (by omega) (by omega)
      · rw [show utf8Encode n
            = [240 + n / 262144, 128 + n / 4096 % 64, 128 + n / 64 % 64, 128 + n % 64] from by
          simp [utf8Encode, h1, h2, h3]]
        simp only [List.cons_append, List.nil_append]
        unfold utf8Decode
        simp only [List.length_cons, utf8DecodeAux]
        rw [show utf8Skip (240 + n / 262144) = 3 from by
              unfold utf8Skip
              rw [if_neg (by omega), if_neg (by omega), if_neg (by omega)],
            show utf8Group (240 + n / 262144)
                ((128 + n / 4096 % 64) :: (128 + n / 64 % 64) :: (128 + n % 64) :: bs) = n
              from by
                unfold utf8Group
                rw [if_neg (by omega), if_neg (by omega), if_neg (by omega)]
                simp only [List.getD_cons_zero, List.getD_cons_succ]
                omega]
        simp only [List.drop_succ_cons, List.drop_zero]
        congr 1
        exact utf8DecodeAux_fuel _ _ bs (by omega) (by omega)

lemma utf8Decode_utf8Str (k : Str) :
    ∀ bs : List Nat, utf8Decode (utf8Str k ++ bs) = k.map Char.toNat ++ utf8Decode bs := by
  induction k with
  | nil =>
      intro bs
      simp [utf8Str]
  | cons c kt ih =>
      intro bs
      rw [utf8Str_cons, List.append_assoc,
        utf8Decode_encode c.toNat (char_toNat_lt c), ih bs, List.map_cons, List.cons_append]

lemma map_ofNat_toNat (l : Str) : (l.map Char.toNat).map Char.ofNat = l := by
  induction l with
  | nil => rfl
  | cons c ct ih => simp [ih, Char.ofNat_toNat]

/-- C1: for every endpoint, bucket name `b` and object key `k`,
`build_public_url` returns exactly `"https://" ++ b ++ "." ++ h ++ "/" ++
quote k`, where `h` is the host the code obtains from the (normalized)
endpoint by deleting the scheme substrings, and percent-decoding the path
segment `quote k` of the result (decoding each `%XX` triple to a byte and
then decoding the bytes as UTF-8) recovers `k` exactly — including keys with
spaces or characters beyond ASCII. -/
theorem build_public_url_spec (endpoint bucket k : Str) :
    build_public_url endpoint bucket k
        = ("https://").data ++ bucket ++ (".").data ++ hostOf endpoint
            ++ ("/").data ++ quote k
      ∧ (utf8Decode (percentDecode (quote k))).map Char.ofNat = k := by
  constructor
  · rfl
  · have h1 := percentDecode_quote_aux k []
    rw [List.append_nil] at h1
    rw [h1, utf8Decode_utf8Str k (percentDecode [])]
    rw [show utf8Decode (percentDecode []) = [] from rfl, List.append_nil]
    exact map_ofNat_toNat k

example : pathStr ("dist/plugin.zip").data = ("dist/plugin.zip").data := by decide

example : pathStr ("a//b/").data = ("a/b").data := by decide

/-! Run lemmas: how `upload_with_oss2` and `mainBody` reduce under the
various preconditions. -/
lemma upload_not_installed (st : Nat) (env : Env) (lf ep bn okey : Str) :
    upload_with_oss2 false st env lf ep bn okey
      = .error ("Python package 'oss2' not installed, run: pip3 install oss2").data := by
  rfl

lemma upload_with_creds (st : Nat) (env : Env) (lf ep bn okey id secret : Str)
    (hid : require_env env ("FINE_OSS_ACCESS_KEY_ID").data [("FINE_OSS_ID").data] = .ok id)
    (hsec : require_env env ("FINE_OSS_ACCESS_KEY_SECRET").data
      [("FINE_OSS_SECRET").data] = .ok secret) :
    upload_with_oss2 true st env lf ep bn okey
      = if st < 200 ∨ 300 ≤ st then
          .error (("OSS upload failed, status=").data ++ natToStr st)
        else
          .ok (if pyStrip (getenv env ("FINE_OSS_SECURITY_TOKEN").data []) ≠ [] then
              Auth.sts id secret (pyStrip (getenv env ("FINE_OSS_SECURITY_TOKEN").data []))
            else Auth.std id secret) := by
  unfold upload_with_oss2
  rw [hid, hsec, if_neg (by simp)]

lemma upload_id_error (st : Nat) (env : Env) (lf ep bn okey e : Str)
    (hid : require_env env ("FINE_OSS_ACCESS_KEY_ID").data [("FINE_OSS_ID").data]
      = .error e) :
    upload_with_oss2 true st env lf ep bn okey = .error e := by
  unfold upload_with_oss2
  rw [hid, if_neg (by simp)]

lemma upload_secret_error (st : Nat) (env : Env) (lf ep bn okey id e : Str)
    (hid : require_env env ("FINE_OSS_ACCESS_KEY_ID").data [("FINE_OSS_ID").data] = .ok id)
    (hsec : require_env env ("FINE_OSS_ACCESS_KEY_SECRET").data
      [("FINE_OSS_SECRET").data] = .error e) :
    upload_with_oss2 true st env lf ep bn okey = .error e := by
  unfold upload_with_oss2
  rw [hid, hsec, if_neg (by simp)]

lemma mainBody_file_error (args : Args) (env : Env) (isF : Str → Bool)
    (inst : Bool) (st : Nat) (h : isF args.file = false) :
    mainBody args env isF inst st
      = .error (("File not found: ").data ++ pathStr args.file) := by
  unfold mainBody
  rw [if_pos (by simp [h])]

lemma mainBody_endpoint_error (args : Args) (env : Env) (isF : Str → Bool)
    (inst : Bool) (st : Nat) (e : Str) (hf : isF args.file = true)
    (he : require_env env ("FINE_OSS_ENDPOINT").data [] = .error e) :
    mainBody args env isF inst st = .error e := by
  unfold mainBody
  rw [if_neg (by simp [hf]), he]

lemma mainBody_key_empty (args : Args) (env : Env) (isF : Str → Bool)
    (inst : Bool) (st : Nat) (ep : Str) (hf : isF args.file = true)
    (hep : require_env env ("FINE_OSS_ENDPOINT").data [] = .ok ep)
    (hk : stripSlashes args.object_key = []) :
    mainBody args env isF inst st = .error ("object key must not be empty").data := by
  unfold mainBody
  rw [if_neg (by simp [hf]), hep]
  dsimp only
  rw [if_pos hk]

lemma mainBody_upload (args : Args) (env : Env) (isF : Str → Bool)
    (inst : Bool) (st : Nat) (ep : Str) (hf : isF args.file = true)
    (hep : require_env env ("FINE_OSS_ENDPOINT").data [] = .ok ep)
    (hk : stripSlashes args.object_key ≠ []) :
    mainBody args env isF inst st
      = match upload_with_oss2 inst st env args.file (normalize_endpoint ep)
          (bucketOf env) (stripSlashes args.object_key) with
        | .error e => .error e
        | .ok _ =>
            .ok [("Uploaded: ").data ++ pathStr args.file,
                 ("OSS Path: oss://").data ++ bucketOf env ++ ("/").data
                   ++ stripSlashes args.object_key,
                 ("URL: ").data ++ build_public_url (normalize_endpoint ep) (bucketOf env)
                   (stripSlashes args.object_key),
                 ("下载地址: ").data ++ build_public_url (normalize_endpoint ep) (bucketOf env)
                   (stripSlashes args.object_key)] := by
  unfold mainBody
  rw [if_neg (by simp [hf]), hep]
  dsimp only
  rw [if_neg hk]

/-- C4: with the SDK installed and credentials resolvable, the put operation
succeeds exactly when its status lies in 200..299; any status outside that
range yields the error `OSS upload failed, status={status}`; and run through
`main`, a 403 status exits with code 1 printing
`upload failed: OSS upload failed, status=403` on stderr. -/
theorem upload_status_range (env : Env) (st : Nat) (lf ep bn okey id secret : Str)
    (hid : require_env env ("FINE_OSS_ACCESS_KEY_ID").data [("FINE_OSS_ID").data] = .ok id)
    (hsec : require_env env ("FINE_OSS_ACCESS_KEY_SECRET").data
      [("FINE_OSS_SECRET").data] = .ok secret) :
    ((∃ a, upload_with_oss2 true st env lf ep bn okey = .ok a) ↔ (200 ≤ st ∧ st ≤ 299))
    ∧ (st < 200 ∨ 300 ≤ st →
        upload_with_oss2 true st env lf ep bn okey
          = .error (("OSS upload failed, status=").data ++ natToStr st))
    ∧ (∀ (args : Args) (isF : Str → Bool) (epv : Str),
        isF args.file = true →
        require_env env ("FINE_OSS_ENDPOINT").data [] = .ok epv →
        stripSlashes args.object_key ≠ [] →
        cicd.main args env isF true 403
          = (1, [], [("upload failed: OSS upload failed, status=403").data])) := by
  refine ⟨?_, ?_, ?_⟩
  · rw [upload_with_creds st env lf ep bn okey id secret hid hsec]
    constructor
    · rintro ⟨a, ha⟩
      by_contra hout
      rw [if_pos (by omega)] at ha
      exact Except.noConfusion ha
    · intro hin
      rw [if_neg (by omega)]
      exact ⟨_, rfl⟩
  · intro hout
    rw [upload_with_creds st env lf ep bn okey id secret hid hsec, if_pos hout]
  · intro args isF epv hf hep hk
    unfold cicd.main
    rw [mainBody_upload args env isF true 403 epv hf hep hk]
    rw [upload_with_creds 403 env args.file (normalize_endpoint epv) (bucketOf env)
      (stripSlashes args.object_key) id secret hid hsec]
    rw [if_pos (by omega)]
    dsimp only
    decide

/-- C4 witness: the theorem applied at the concrete environment `testEnv`,
arguments `testArgs` and status 403. -/
theorem upload_status_range_witness :
    cicd.main testArgs testEnv (fun _ => true) true 403
      = (1, [], [("upload failed: OSS upload failed, status=403").data]) :=
  (upload_status_range testEnv 403 ("f").data ("e").data ("b").data ("k").data
      ("test-id").data ("test-secret").data rfl rfl).2.2
    testArgs (fun _ => true) ("oss-cn-hangzhou.aliyuncs.com").data rfl rfl (by decide)

lemma mem_infix_joinComma (names : List Str) (d : Str) (hd : d ∈ names) :
    d <:+: joinComma names := by
  induction names with
  | nil => cases hd
  | cons x rest ih =>
      cases rest with
      | nil =>
          rw [List.mem_singleton] at hd
          subst hd
          exact List.infix_refl d
      | cons y rs =>
          rcases List.mem_cons.mp hd with h | h
          · subst h
            rw [joinComma]
            exact ((List.prefix_append d _).trans (List.prefix_append _ _)).isInfix
          · rw [joinComma]
            exact (ih h).trans (List.suffix_append _ _).isInfix

lemma requireEnvLoop_all_blank (env : Env) (l : List Str)
    (h : ∀ d ∈ l, pyStrip (getenv env d []) = []) : requireEnvLoop env l = none := by
  induction l with
  | nil => rfl
  | cons v rest ih =>
      rw [requireEnvLoop]
      rw [if_neg (by simp [h v (by simp)]), ih (fun d hd => h d (by simp [hd]))]

lemma requireEnvLoop_first (env : Env) (pre : List Str) (c : Str) (post : List Str)
    (hpre : ∀ d ∈ pre, pyStrip (getenv env d []) = [])
    (hc : pyStrip (getenv env c []) ≠ []) :
    requireEnvLoop env (pre ++ c :: post) = some (pyStrip (getenv env c [])) := by
  induction pre with
  | nil =>
      rw [List.nil_append, requireEnvLoop]
      rw [if_pos hc]
  | cons x xs ih =>
      rw [List.cons_append, requireEnvLoop]
      rw [if_neg (by simp [hpre x (by simp)])]
      exact ih (fun d hd => hpre d (by simp [hd]))

/-- C5 counterexample: the claim as stated fails on the raw-versus-stripped
distinction: with the variable set to `" x "` (non-blank after stripping),
`require_env` returns the stripped `"x"`, not the value `" x "` itself. -/
theorem require_env_cex :
    require_env [(("N").data, (" x ").data)] ("N").data [] = .ok ("x").data
    ∧ ("x").data ≠ (" x ").data := by
  constructor
  · rfl
  · decide

/-- C5 (amended): `require_env` returns, stripped of surrounding whitespace,
the value of the first candidate (the name followed by the aliases, in
order) whose value is non-blank after stripping; if every candidate is blank
or unset it fails with a configuration error whose message lists every
checked variable name. -/
theorem require_env_spec (env : Env) (name : Str) (aliases : List Str) :
    (∀ (pre : List Str) (c : Str) (post : List Str),
        name :: aliases = pre ++ c :: post →
        (∀ d ∈ pre, pyStrip (getenv env d []) = []) →
        pyStrip (getenv env c []) ≠ [] →
        require_env env name aliases = .ok (pyStrip (getenv env c [])))
    ∧ ((∀ d ∈ name :: aliases, pyStrip (getenv env d []) = []) →
        require_env env name aliases
          = .error (("Missing required env var: ").data ++ joinComma (name :: aliases))
        ∧ ∀ d ∈ name :: aliases,
            d <:+: (("Missing required env var: ").data ++ joinComma (name :: aliases))) := by
  constructor
  · intro pre c post heq hpre hc
    unfold require_env
    rw [heq, requireEnvLoop_first env pre c post hpre hc]
  · intro hall
    constructor
    · unfold require_env
      rw [requireEnvLoop_all_blank env _ hall]
    · intro d hd
      exact (mem_infix_joinComma _ d hd).trans (List.suffix_append _ _).isInfix

/-- C5 witness: with `A` blank and alias `B` set to `" y "`, resolution skips
`A` and returns the stripped `"y"`; with `X` and alias `Y` both unset,
resolution fails with a message listing `X` and `Y`. -/
theorem require_env_spec_witness :
    require_env [(("A").data, ("  ").data), (("B").data, (" y ").data)]
        ("A").data [("B").data]
      = .ok (pyStrip (getenv [(("A").data, ("  ").data), (("B").data, (" y ").data)]
          ("B").data []))
    ∧ (require_env [] ("X").data [("Y").data]
        = .error (("Missing required env var: ").data ++ joinComma [("X").data, ("Y").data])
       ∧ ∀ d ∈ [("X").data, ("Y").data],
           d <:+: (("Missing required env var: ").data
             ++ joinComma [("X").data, ("Y").data])) :=
  ⟨(require_env_spec [(("A").data, ("  ").data), (("B").data, (" y ").data)]
      ("A").data [("B").data]).1
    [("A").data] ("B").data [] rfl (by decide) (by decide),
   (require_env_spec [] ("X").data [("Y").data]).2 (by decide)⟩

/-- C6: when the file oracle reports the path is not a regular file, `main`
fails with exit code 1 and the stderr line `upload failed: File not found:
{path}` (the path rendered in `Path` display form), the path occurs in the
message, and the outcome is independent of the SDK oracles — no upload is
attempted. -/
theorem file_not_found_before_upload (args : Args) (env : Env) (isF : Str → Bool)
    (h : isF args.file = false) (inst inst2 : Bool) (st st2 : Nat) :
    cicd.main args env isF inst st
      = (1, [], [("upload failed: File not found: ").data ++ pathStr args.file])
    ∧ pathStr args.file
        <:+: (("upload failed: File not found: ").data ++ pathStr args.file)
    ∧ cicd.main args env isF inst st = cicd.main args env isF inst2 st2 := by
  have h1 : ∀ (i : Bool) (s : Nat), cicd.main args env isF i s
      = (1, [], [("upload failed: File not found: ").data ++ pathStr args.file]) := by
    intro i s
    unfold cicd.main
    rw [mainBody_file_error args env isF i s h]
    dsimp only
    rw [← List.append_assoc,
      show ("upload failed: ").data ++ ("File not found: ").data
        = ("upload failed: File not found: ").data from by decide]
  exact ⟨h1 inst st,
    ⟨("upload failed: File not found: ").data, [], by simp⟩,
    (h1 inst st).trans (h1 inst2 st2).symm⟩

/-- C6 witness: the theorem applied at `testArgs` with a file oracle that
reports no file, environment `testEnv`, and two distinct SDK oracle pairs. -/
theorem file_not_found_before_upload_witness :
    cicd.main testArgs testEnv (fun _ => false) true 200
      = (1, [], [("upload failed: File not found: ").data ++ pathStr testArgs.file])
    ∧ pathStr testArgs.file
        <:+: (("upload failed: File not found: ").data ++ pathStr testArgs.file)
    ∧ cicd.main testArgs testEnv (fun _ => false) true 200
        = cicd.main testArgs testEnv (fun _ => false) false 500 :=
  file_not_found_before_upload testArgs testEnv (fun _ => false) rfl true false 200 500

lemma stripRight_prefix (p : Char → Bool) (l : Str) : stripRight p l <+: l := by
  unfold stripRight
  rcases List.dropWhile_suffix (l := l.reverse) p with ⟨t, ht⟩
  refine ⟨t.reverse, ?_⟩
  rw [← List.reverse_append, ht, List.reverse_reverse]

lemma stripBoth_head_not (p : Char → Bool) (s : Str) (c : Char)
    (h : (stripBoth p s).head? = some c) : p c = false := by
  unfold stripBoth at h
  rcases stripRight_prefix p (stripLeft p s) with ⟨t, ht⟩
  have hh : (stripLeft p s).head? = some c := by
    rw [← ht]
    cases hs : stripRight p (stripLeft p s) with
    | nil => rw [hs] at h; cases h
    | cons x xs =>
        rw [hs] at h
        cases h
        rfl
  have hm := List.head?_dropWhile_not p s
  unfold stripLeft at hh
  rw [hh] at hm
  exact hm

lemma stripBoth_decomposition (p : Char → Bool) (s : Str) :
    ∃ a b : Str, s = a ++ stripBoth p s ++ b
      ∧ (∀ c ∈ a, p c = true) ∧ (∀ c ∈ b, p c = true) := by
  refine ⟨s.takeWhile p, ((stripLeft p s).reverse.takeWhile p).reverse, ?_, ?_, ?_⟩
  · have hmid : stripBoth p s ++ ((stripLeft p s).reverse.takeWhile p).reverse
        = stripLeft p s := by
      unfold stripBoth stripRight
      rw [← List.reverse_append, List.takeWhile_append_dropWhile, List.reverse_reverse]
    rw [List.append_assoc, hmid]
    unfold stripLeft
    rw [List.takeWhile_append_dropWhile]
  · intro c hc
    exact List.mem_takeWhile_imp hc
  · intro c hc
    rw [List.mem_reverse] at hc
    exact List.mem_takeWhile_imp hc

/-- C7: the object-key normalization strips only leading and trailing `/`
(every key decomposes as leading slashes ++ result ++ trailing slashes, and
the result neither starts nor ends with `/`), `"/a//b/"` normalizes to
`"a//b"` keeping the interior double slash, and an empty result aborts the
run with `object key must not be empty` independently of the SDK oracles —
no upload happens. -/
theorem object_key_strip_spec :
    (stripSlashes ("/a//b/").data = ("a//b").data)
    ∧ (∀ k : Str, ∃ nL nR : Nat,
        k = List.replicate nL '/' ++ stripSlashes k ++ List.replicate nR '/'
        ∧ (∀ c, (stripSlashes k).head? = some c → c ≠ '/')
        ∧ (∀ c, (stripSlashes k).reverse.head? = some c → c ≠ '/'))
    ∧ (∀ (args : Args) (env : Env) (isF : Str → Bool) (inst inst2 : Bool) (st st2 : Nat)
        (ep : Str),
        isF args.file = true →
        require_env env ("FINE_OSS_ENDPOINT").data [] = .ok ep →
        stripSlashes args.object_key = [] →
        cicd.main args env isF inst st
          = (1, [], [("upload failed: object key must not be empty").data])
        ∧ cicd.main args env isF inst st = cicd.main args env isF inst2 st2) := by
  refine ⟨by decide, ?_, ?_⟩
  · intro k
    unfold stripSlashes
    rcases stripBoth_decomposition (fun c => c == '/') k with ⟨a, b, hk, ha, hb⟩
    refine ⟨a.length, b.length, ?_, ?_, ?_⟩
    · rw [← List.eq_replicate_of_mem (fun c hc => by simpa using ha c hc),
        ← List.eq_replicate_of_mem (fun c hc => by simpa using hb c hc)]
      exact hk
    · intro c hc
      have hp := stripBoth_head_not (fun c => c == '/') k c hc
      simpa using hp
    · intro c hc
      unfold stripBoth at hc
      have hp := head?_stripRight_reverse_not (fun c => c == '/')
        (stripLeft (fun c => c == '/') k) c hc
      simpa using hp
  · intro args env isF inst inst2 st st2 ep hf hep hk
    have h1 : ∀ (i : Bool) (s : Nat), cicd.main args env isF i s
        = (1, [], [("upload failed: object key must not be empty").data]) := by
      intro i s
      unfold cicd.main
      rw [mainBody_key_empty args env isF i s ep hf hep hk]
      dsimp only
      decide
    exact ⟨h1 inst st, (h1 inst st).trans (h1 inst2 st2).symm⟩

/-- C7 witness: the empty-key abort applied at the concrete key `"///"`,
which strips to empty, under two distinct SDK oracle pairs. -/
theorem object_key_strip_spec_witness :
    cicd.main ⟨("dist/plugin.zip").data, ("///").data⟩ testEnv (fun _ => true) true 200
      = (1, [], [("upload failed: object key must not be empty").data])
    ∧ cicd.main ⟨("dist/plugin.zip").data, ("///").data⟩ testEnv (fun _ => true) true 200
      = cicd.main ⟨("dist/plugin.zip").data, ("///").data⟩ testEnv (fun _ => true) false 404 :=
  object_key_strip_spec.2.2 ⟨("dist/plugin.zip").data, ("///").data⟩ testEnv
    (fun _ => true) true false 200 404 ("oss-cn-hangzhou.aliyuncs.com").data
    rfl rfl (by decide)

set_option maxRecDepth 40000 in
/-- C8 counterexample: the claim as stated fails on the storage-scheme
literal: a fully successful concrete run prints `OSS Path:
oss://fine-build/test/plugin.zip`, and no stdout line contains
`storage://`. -/
theorem main_success_output_cex :
    cicd.main testArgs testEnv (fun _ => true) true 200
      = (0, [("Uploaded: dist/plugin.zip").data,
             ("OSS Path: oss://fine-build/test/plugin.zip").data,
             ("URL: https://fine-build.oss-cn-hangzhou.aliyuncs.com/test/plugin.zip").data,
             ("下载地址: https://fine-build.oss-cn-hangzhou.aliyuncs.com/test/plugin.zip").data],
         [])
    ∧ ∀ line ∈ (cicd.main testArgs testEnv (fun _ => true) true 200).2.1,
        ¬ ("storage://").data <:+: line := by
  constructor
  · decide
  · decide

/-- C8 (amended): on a successful upload (SDK installed, credentials and
endpoint resolvable, non-empty key, status in 200..299) the program prints
the uploaded local path, the storage path in the form `oss://{bucket}/{key}`,
and the public URL twice — an English line and a localized duplicate — and
exits with status 0. -/
theorem main_success_output (args : Args) (env : Env) (isF : Str → Bool) (st : Nat)
    (ep id secret : Str)
    (hf : isF args.file = true)
    (hep : require_env env ("FINE_OSS_ENDPOINT").data [] = .ok ep)
    (hk : stripSlashes args.object_key ≠ [])
    (hid : require_env env ("FINE_OSS_ACCESS_KEY_ID").data [("FINE_OSS_ID").data] = .ok id)
    (hsec : require_env env ("FINE_OSS_ACCESS_KEY_SECRET").data
      [("FINE_OSS_SECRET").data] = .ok secret)
    (hst : 200 ≤ st ∧ st ≤ 299) :
    cicd.main args env isF true st
      = (0, [("Uploaded: ").data ++ pathStr args.file,
             ("OSS Path: oss://").data ++ bucketOf env ++ ("/").data
               ++ stripSlashes args.object_key,
             ("URL: ").data ++ build_public_url (normalize_endpoint ep) (bucketOf env)
               (stripSlashes args.object_key),
             ("下载地址: ").data ++ build_public_url (normalize_endpoint ep) (bucketOf env)
               (stripSlashes args.object_key)],
         []) := by
  unfold cicd.main
  rw [mainBody_upload args env isF true st ep hf hep hk,
    upload_with_creds st env args.file (normalize_endpoint ep) (bucketOf env)
      (stripSlashes args.object_key) id secret hid hsec,
    if_neg (by omega)]

/-- C8 witness: the amended theorem applied at the concrete run of
`testArgs`/`testEnv` with status 200. -/
theorem main_success_output_witness :
    cicd.main testArgs testEnv (fun _ => true) true 200
      = (0, [("Uploaded: ").data ++ pathStr testArgs.file,
             ("OSS Path: oss://").data ++ bucketOf testEnv ++ ("/").data
               ++ stripSlashes testArgs.object_key,
             ("URL: ").data ++ build_public_url
               (normalize_endpoint ("oss-cn-hangzhou.aliyuncs.com").data) (bucketOf testEnv)
               (stripSlashes testArgs.object_key),
             ("下载地址: ").data ++ build_public_url
               (normalize_endpoint ("oss-cn-hangzhou.aliyuncs.com").data) (bucketOf testEnv)
               (stripSlashes testArgs.object_key)],
         []) :=
  main_success_output testArgs testEnv (fun _ => true) 200
    ("oss-cn-hangzhou.aliyuncs.com").data ("test-id").data ("test-secret").data
    rfl rfl (by decide) rfl rfl (by omega)

set_option maxRecDepth 40000 in
/-- C9: the bucket silently falls back to the fixed default `fine-build`
both when its variable is unset and when it is blank after stripping, and
the run proceeds (in the concrete scenario with the bucket unset, endpoint
`oss-cn-hangzhou.aliyuncs.com` and key `test/plugin.zip`, the run succeeds
and prints `URL: https://fine-build.oss-cn-hangzhou.aliyuncs.com/test/plugin.zip`),
whereas a blank required variable — endpoint, access key id or access key
secret — is fatal. -/
theorem bucket_default_spec :
    (∀ env : Env, env.find? (fun p => p.1 == ("FINE_OSS_BUCKET").data) = none →
        bucketOf env = DEFAULT_BUCKET)
    ∧ (∀ env : Env, pyStrip (getenv env ("FINE_OSS_BUCKET").data DEFAULT_BUCKET) = [] →
        bucketOf env = DEFAULT_BUCKET)
    ∧ ((cicd.main testArgs testEnv (fun _ => true) true 200).1 = 0
       ∧ ("URL: https://fine-build.oss-cn-hangzhou.aliyuncs.com/test/plugin.zip").data
           ∈ (cicd.main testArgs testEnv (fun _ => true) true 200).2.1)
    ∧ (∀ (args : Args) (env : Env) (isF : Str → Bool) (inst : Bool) (st : Nat),
        isF args.file = true →
        pyStrip (getenv env ("FINE_OSS_ENDPOINT").data []) = [] →
        cicd.main args env isF inst st
          = (1, [], [("upload failed: Missing required env var: FINE_OSS_ENDPOINT").data]))
    ∧ (∀ (args : Args) (env : Env) (isF : Str → Bool) (st : Nat) (ep : Str),
        isF args.file = true →
        require_env env ("FINE_OSS_ENDPOINT").data [] = .ok ep →
        stripSlashes args.object_key ≠ [] →
        pyStrip (getenv env ("FINE_OSS_ACCESS_KEY_ID").data []) = [] →
        pyStrip (getenv env ("FINE_OSS_ID").data []) = [] →
        cicd.main args env isF true st
          = (1, [], [("upload failed: Missing required env var: " ++
              "FINE_OSS_ACCESS_KEY_ID, FINE_OSS_ID").data]))
    ∧ (∀ (args : Args) (env : Env) (isF : Str → Bool) (st : Nat) (ep id : Str),
        isF args.file = true →
        require_env env ("FINE_OSS_ENDPOINT").data [] = .ok ep →
        stripSlashes args.object_key ≠ [] →
        require_env env ("FINE_OSS_ACCESS_KEY_ID").data [("FINE_OSS_ID").data] = .ok id →
        pyStrip (getenv env ("FINE_OSS_ACCESS_KEY_SECRET").data []) = [] →
        pyStrip (getenv env ("FINE_OSS_SECRET").data []) = [] →
        cicd.main args env isF true st
          = (1, [], [("upload failed: Missing required env var: " ++
              "FINE_OSS_ACCESS_KEY_SECRET, FINE_OSS_SECRET").data])) := by
  refine ⟨?_, ?_, ⟨by decide, by decide⟩, ?_, ?_, ?_⟩
  · intro env h
    unfold bucketOf getenv
    rw [h]
    decide
  · intro env h
    simp only [bucketOf]
    rw [h, if_pos rfl]
  · intro args env isF inst st hf hblank
    have he : require_env env ("FINE_OSS_ENDPOINT").data []
        = .error (("Missing required env var: ").data
            ++ joinComma [("FINE_OSS_ENDPOINT").data]) := by
      unfold require_env
      rw [requireEnvLoop_all_blank env _ ?_]
      intro d hd
      rw [List.mem_singleton] at hd
      subst hd
      exact hblank
    unfold cicd.main
    rw [mainBody_endpoint_error args env isF inst st _ hf he]
    dsimp only
    decide
  · intro args env isF st ep hf hep hk h1 h2
    have hid : require_env env ("FINE_OSS_ACCESS_KEY_ID").data [("FINE_OSS_ID").data]
        = .error (("Missing required env var: ").data
            ++ joinComma [("FINE_OSS_ACCESS_KEY_ID").data, ("FINE_OSS_ID").data]) := by
      unfold require_env
      rw [requireEnvLoop_all_blank env _ ?_]
      intro d hd
      rcases List.mem_cons.mp hd with rfl | hd
      · exact h1
      · rw [List.mem_singleton] at hd
        subst hd
        exact h2
    unfold cicd.main
    rw [mainBody_upload args env isF true st ep hf hep hk,
      upload_id_error st env args.file (normalize_endpoint ep) (bucketOf env)
        (stripSlashes args.object_key) _ hid]
    dsimp only
    decide
  · intro args env isF st ep id hf hep hk hid h1 h2
    have hsec : require_env env ("FINE_OSS_ACCESS_KEY_SECRET").data [("FINE_OSS_SECRET").data]
        = .error (("Missing required env var: ").data
            ++ joinComma [("FINE_OSS_ACCESS_KEY_SECRET").data, ("FINE_OSS_SECRET").data]) := by
      unfold require_env
      rw [requireEnvLoop_all_blank env _ ?_]
      intro d hd
      rcases List.mem_cons.mp hd with rfl | hd
      · exact h1
      · rw [List.mem_singleton] at hd
        subst hd
        exact h2
    unfold cicd.main
    rw [mainBody_upload args env isF true st ep hf hep hk,
      upload_secret_error st env args.file (normalize_endpoint ep) (bucketOf env)
        (stripSlashes args.object_key) id _ hid hsec]
    dsimp only
    decide

/-- C9 witness: the blank-endpoint fatality applied at the empty environment
(endpoint unset), and the bucket fallback applied at `testEnv` (bucket
unset). -/
theorem bucket_default_spec_witness :
    cicd.main testArgs [] (fun _ => true) true 200
      = (1, [], [("upload failed: Missing required env var: FINE_OSS_ENDPOINT").data])
    ∧ bucketOf testEnv = DEFAULT_BUCKET :=
  ⟨bucket_default_spec.2.2.2.1 testArgs [] (fun _ => true) true 200 rfl (by decide),
   bucket_default_spec.1 testEnv (by decide)⟩

/-- C10: if the oss2 import fails, `upload_with_oss2` raises the
missing-dependency error whatever the environment holds — the credential
variables are never consulted — so a missing-credential error can only arise
with the SDK installed; and a security token that strips to blank is treated
as absent, selecting the standard two-factor `Auth` rather than `StsAuth`. -/
theorem upload_sdk_and_token (st : Nat) (env : Env) (lf ep bn okey : Str) :
    (upload_with_oss2 false st env lf ep bn okey
      = .error ("Python package 'oss2' not installed, run: pip3 install oss2").data)
    ∧ (∀ (inst : Bool) (r : Str),
        upload_with_oss2 inst st env lf ep bn okey
          = .error (("Missing required env var: ").data ++ r) → inst = true)
    ∧ (∀ (id secret : Str),
        require_env env ("FINE_OSS_ACCESS_KEY_ID").data [("FINE_OSS_ID").data] = .ok id →
        require_env env ("FINE_OSS_ACCESS_KEY_SECRET").data
          [("FINE_OSS_SECRET").data] = .ok secret →
        pyStrip (getenv env ("FINE_OSS_SECURITY_TOKEN").data []) = [] →
        200 ≤ st → st ≤ 299 →
        upload_with_oss2 true st env lf ep bn okey = .ok (Auth.std id secret)) := by
  refine ⟨upload_not_installed st env lf ep bn okey, ?_, ?_⟩
  · intro inst r h
    cases inst
    · rw [upload_not_installed] at h
      injection h with hAB
      have h5 := congrArg List.head? hAB
      have hP : List.head?
          (("Python package 'oss2' not installed, run: pip3 install oss2").data)
          = some 'P' := rfl
      have hM : List.head? ((("Missing required env var: ").data ++ r)) = some 'M' := rfl
      rw [hP, hM] at h5
      exact absurd (Option.some.inj h5) (by decide)
    · rfl
  · intro id secret hid hsec htok h1 h2
    rw [upload_with_creds st env lf ep bn okey id secret hid hsec,
      if_neg (by omega), if_neg (by simp [htok])]

/-- C10 witness: with a whitespace-only token in the environment, the
missing-SDK error is produced when the import fails, and a successful upload
uses the standard two-factor auth. -/
theorem upload_sdk_and_token_witness :
    (upload_with_oss2 false 200 testEnvTok ("f").data ("e").data ("b").data ("k").data
      = .error ("Python package 'oss2' not installed, run: pip3 install oss2").data)
    ∧ upload_with_oss2 true 250 testEnvTok ("f").data ("e").data ("b").data ("k").data
      = .ok (Auth.std ("test-id").data ("test-secret").data) :=
  ⟨(upload_sdk_and_token 200 testEnvTok ("f").data ("e").data ("b").data ("k").data).1,
   (upload_sdk_and_token 250 testEnvTok ("f").data ("e").data ("b").data ("k").data).2.2
     ("test-id").data ("test-secret").data rfl rfl (by decide) (by omega) (by omega)⟩
